import Mathlib

/-!
Verification of `WebTunnel/WebTunnelSSH/src/WebTunnelSSH.cpp` (macchina.io
Remote Manager SSH client launcher).

The development shallowly embeds the claim-relevant parts of the program:

* the Poco string classification used to pick the port flag
  (`Poco::icompare(_sshClient, 0, n, lit) == 0`, lines 383, 390, 396);
* the SSH argument-vector construction (`main`, lines 382-399), as
  `buildSSHArgs`;
* credential prompting with terminal-echo toggling (`promptLogin` and
  `echo`, lines 279-310), as `promptLogin` over an explicit terminal and
  stdin state;
* the overall control flow of `WebTunnelSSH::main` (lines 322-407), as
  `mainFn` over an environment supplying configuration, stdin, the tunnel
  outcome and the child exit code.

Strings are modelled as Lean `String` (byte-for-char; all literals compared
by the program are ASCII). Ports are `Nat` (`Poco::UInt16` values). The
tunnel-forwarding engine (`Poco::WebTunnel::LocalPortForwarder`) and the
exception-to-exit-status mapping of `Poco::Util::Application::run` are not
part of the single source file; where a claim depends on them they are
modelled from the spec (see `mainFn`).
-/

namespace WebTunnelSSH

/-- Poco `Ascii::toLower`: maps ASCII uppercase letters to lowercase and
leaves every other character unchanged. -/
def asciiLower (c : Char) : Char :=
  if 'A' ≤ c ∧ c ≤ 'Z' then Char.ofNat (c.toNat + 32) else c

/-- The character list of a string with every character ASCII-lowercased. -/
def lowerChars (s : String) : List Char := s.toList.map asciiLower

/-- Source line 383/390/396: `Poco::icompare(s, 0, n, t) == 0`.
Poco compares `s.substr(0, n)` with the NUL-terminated literal `t`
case-insensitively, and returns 0 exactly when the (clamped) substring and
the literal are equal after `Ascii::toLower` on each character. -/
def icompareEq (s : String) (n : Nat) (t : String) : Bool :=
  (s.toList.take n).map asciiLower == t.toList.map asciiLower

/-- Source line 383: `Poco::icompare(_sshClient, 0, 5, "putty") == 0`. -/
def isPuttyStyle (client : String) : Bool := icompareEq client 5 "putty"

/-- Source lines 383/390/396: `Poco::icompare(_sshClient, 0, 3, "scp") == 0`. -/
def isScpStyle (client : String) : Bool := icompareEq client 3 "scp"

/-- Source lines 382-386: the first pushed argument, `-P` for putty-style or
scp-style clients, else `-p`. -/
def clientPortFlag (client : String) : String :=
  if isPuttyStyle client || isScpStyle client then "-P" else "-p"

/-- Source lines 382-399: construction of `sshArgs` in `WebTunnelSSH::main`.
`localPort` is the bound local port reported by the forwarder
(`Poco::UInt16`), `login` is `_login`, and `trailing` is
`++args.begin() .. args.end()`, i.e. everything after the Remote-URI.
`Poco::NumberFormatter::format(unsigned)` is decimal rendering, `Nat.repr`. -/
def buildSSHArgs (sshClient : String) (localPort : Nat) (login : String)
    (trailing : List String) : List String :=
  let loginArgs : List String :=
    if !login.isEmpty && !isScpStyle sshClient then ["-l", login] else []
  let hostArgs : List String :=
    if !isScpStyle sshClient then ["localhost"] else []
  clientPortFlag sshClient :: Nat.repr localPort :: (loginArgs ++ trailing ++ hostArgs)

example : buildSSHArgs "ssh" 2022 "" [] = ["-p", "2022", "localhost"] := by decide
example : buildSSHArgs "scp" 2022 "root" ["f", "r:/tmp/"] = ["-P", "2022", "f", "r:/tmp/"] := by
  decide
example : buildSSHArgs "PuTTY.exe" 45 "root" [] = ["-P", "45", "-l", "root", "localhost"] := by
  decide
example : buildSSHArgs "SCP.exe" 45 "root" [] = ["-P", "45"] := by decide

/-- The member variables of class `WebTunnelSSH` that the claims touch
(source lines 409-417). -/
structure AppState where
  helpRequested : Bool
  localPort : Nat
  remotePort : Nat
  username : String
  password : String
  login : String
  sshClient : String
  deriving Repr, DecidableEq

/-- The `WebTunnelSSH` constructor on the Unix branch (source lines 71-85):
`_helpRequested` false, `_localPort` 0, `_remotePort` 22, `_sshClient`
"ssh", the string members empty. -/
def initialState : AppState :=
  { helpRequested := false
    localPort := 0
    remotePort := 22
    username := ""
    password := ""
    login := ""
    sshClient := "ssh" }

/-- Option callback `handleHelp` (source lines 186-189). -/
def handleHelp (s : AppState) : AppState := { s with helpRequested := true }

/-- Option callback `handleClient` for `--ssh-client` (`-C`) (source lines 196-199). -/
def handleClient (s : AppState) (value : String) : AppState := { s with sshClient := value }

/-- Option callback `handleSCP` for `--scp` (source lines 201-204). -/
def handleSCP (s : AppState) : AppState := { s with sshClient := "scp" }

/-- Option callback `handleUsername` for `--username` (`-u`) (source lines 216-219). -/
def handleUsername (s : AppState) (value : String) : AppState := { s with username := value }

/-- Option callback `handlePassword` for `--password` (`-p`) (source lines 226-229). -/
def handlePassword (s : AppState) (value : String) : AppState := { s with password := value }

/-- Option callback `handleLogin` for `--login-name` (`-l`) (source lines 221-224). -/
def handleLogin (s : AppState) (value : String) : AppState := { s with login := value }

/-- Observable effects of a run that the claims talk about. -/
inductive Event where
  | help
  | promptUser
  | promptPassword
  | echoSet (enabled : Bool)
  | spawn (exe : String) (args : List String)
  deriving Repr, DecidableEq

/-- State threaded through `promptLogin`: the two credential members, the
remaining stdin lines, the terminal echo flag (the `ECHO` bit of
`termios.c_lflag`, source lines 296-310: `echo(status)` sets the bit to
`status`), and the trace of observable events. -/
structure PromptState where
  username : String
  password : String
  stdin : List String
  echoOn : Bool
  events : List Event
  deriving Repr, DecidableEq

/-- `std::getline(std::cin, s)`: consumes one line; on exhausted input the
read fails, leaves the string empty, and execution continues (stream
exceptions are not enabled on `std::cin`). -/
def getLineFn : List String → String × List String
  | [] => ("", [])
  | l :: ls => (l, ls)

/-- Source lines 279-294, `WebTunnelSSH::promptLogin`: prompt for the
username if `_username` is empty, then prompt for the password if
`_password` is empty, with echo disabled before the password read and
re-enabled right after it. -/
def promptLogin (ps : PromptState) : PromptState :=
  let ps1 :=
    if ps.username.isEmpty then
      { ps with
        username := (getLineFn ps.stdin).1
        stdin := (getLineFn ps.stdin).2
        events := ps.events ++ [Event.promptUser] }
    else ps
  if ps1.password.isEmpty then
    { ps1 with
      password := (getLineFn ps1.stdin).1
      stdin := (getLineFn ps1.stdin).2
      echoOn := true
      events := ps1.events ++ [Event.promptPassword, Event.echoSet false, Event.echoSet true] }
  else ps1

/-- `Poco::Util::Application::EXIT_OK`. -/
def EXIT_OK : Int := 0

/-- `Poco::Util::Application::EXIT_CONFIG` (the configuration-error status,
value 78). -/
def EXIT_CONFIG : Int := 78

/-- Environment of a run: the configuration store restricted to the lookups
`main` performs, the stdin lines, the outcome of opening the tunnel, and
the exit code of the spawned child.

The tunnel outcome is modelled from the spec: `Poco::URI` parsing and
`Poco::WebTunnel::LocalPortForwarder` are outside the source file; per the
spec, opening the tunnel either yields the bound local port or fails. -/
structure Env where
  cfg : String → Option String
  stdinLines : List String
  tunnel : Except Unit Nat
  childExit : Int

/-- Source line 366: `config().getString("ssh.executable", _sshClient)` —
the configuration value when the key is present, else the current member
value (set by the constructor, `--ssh-client` (`-C`), or `--scp`). -/
def resolveSshClient (cfg : String → Option String) (current : String) : String :=
  (cfg "ssh.executable").getD current

/-- Result of a run: the process exit status and the observable events. -/
structure RunResult where
  rc : Int
  events : List Event
  deriving Repr, DecidableEq

/-- Source lines 322-407, `WebTunnelSSH::main` (claim-relevant flow):

* lines 325-328: help requested or no positional arguments → print help,
  return `EXIT_OK`;
* line 366-371: resolve the client executable; empty → `EXIT_CONFIG`,
  nothing spawned;
* line 373: `promptLogin()`;
* lines 375-380: open the tunnel. Modelled from the spec: on failure the
  run ends with the configuration-error status and nothing is spawned
  (the timeouts, TLS and proxy blocks at lines 331-364 configure external
  collaborators and carry no claim content);
* lines 382-399: build `sshArgs` from the resolved client, the bound local
  port, `_login` and the arguments after the Remote-URI;
* lines 401-404: launch the client and pass its exit code through. -/
def mainFn (s : AppState) (env : Env) (args : List String) : RunResult :=
  if s.helpRequested || args.isEmpty then
    { rc := EXIT_OK, events := [Event.help] }
  else
    let sshClient := resolveSshClient env.cfg s.sshClient
    if sshClient.isEmpty then
      { rc := EXIT_CONFIG, events := [] }
    else
      let pr := promptLogin
        { username := s.username
          password := s.password
          stdin := env.stdinLines
          echoOn := true
          events := [] }
      match env.tunnel with
      | Except.error _ => { rc := EXIT_CONFIG, events := pr.events }
      | Except.ok boundPort =>
        { rc := env.childExit
          events := pr.events ++
            [Event.spawn sshClient (buildSSHArgs sshClient boundPort s.login (args.drop 1))] }

theorem isPrefixOf_iff_take (l₁ l₂ : List Char) :
    l₁.isPrefixOf l₂ = true ↔ l₂.take l₁.length = l₁ := by
  induction l₁ generalizing l₂ with
  | nil => simp [List.isPrefixOf]
  | cons a as ih =>
    cases l₂ with
    | nil => simp [List.isPrefixOf]
    | cons b bs =>
      simp only [List.isPrefixOf, Bool.and_eq_true, beq_iff_eq, ih, List.length_cons,
        List.take_succ_cons, List.cons.injEq]
      exact and_congr_left fun _ => eq_comm

theorem lowerChars_putty_length : (lowerChars "putty").length = 5 := by decide

theorem lowerChars_scp_length : (lowerChars "scp").length = 3 := by decide

theorem isPuttyStyle_iff (client : String) :
    isPuttyStyle client = true ↔ (lowerChars "putty").isPrefixOf (lowerChars client) = true := by
  rw [isPrefixOf_iff_take, lowerChars_putty_length]
  simp only [isPuttyStyle, icompareEq, beq_iff_eq, lowerChars, List.map_take]

theorem isScpStyle_iff (client : String) :
    isScpStyle client = true ↔ (lowerChars "scp").isPrefixOf (lowerChars client) = true := by
  rw [isPrefixOf_iff_take, lowerChars_scp_length]
  simp only [isScpStyle, icompareEq, beq_iff_eq, lowerChars, List.map_take]

theorem clientPortFlag_eq_iff (client : String) :
    clientPortFlag client = "-P" ↔
      ((lowerChars "putty").isPrefixOf (lowerChars client) = true ∨
       (lowerChars "scp").isPrefixOf (lowerChars client) = true) := by
  rw [← isPuttyStyle_iff, ← isScpStyle_iff, ← Bool.or_eq_true]
  unfold clientPortFlag
  cases h : (isPuttyStyle client || isScpStyle client)
  · rw [if_neg (by simp [h])]
    decide
  · rw [if_pos (by simp [h])]
    decide

/-- C2: for every resolved client executable name, the first element of the
built argument vector is `-P` iff the executable name has the prefix
`putty` or the prefix `scp` case-insensitively, is `-p` otherwise, and the
second element is the decimal rendering of the bound local port. -/
theorem buildSSHArgs_first_two (client : String) (port : Nat) (login : String)
    (trailing : List String) :
    ((buildSSHArgs client port login trailing).head? = some "-P" ↔
      ((lowerChars "putty").isPrefixOf (lowerChars client) = true ∨
       (lowerChars "scp").isPrefixOf (lowerChars client) = true)) ∧
    ((buildSSHArgs client port login trailing).head? = some "-P" ∨
     (buildSSHArgs client port login trailing).head? = some "-p") ∧
    (buildSSHArgs client port login trailing)[1]? = some (Nat.repr port) := by
  have hhead : (buildSSHArgs client port login trailing).head? =
      some (clientPortFlag client) := rfl
  have h1 : (buildSSHArgs client port login trailing)[1]? = some (Nat.repr port) := by
    unfold buildSSHArgs
    simp
  refine ⟨?_, ?_, h1⟩
  · rw [hhead, Option.some_inj]
    exact clientPortFlag_eq_iff client
  · rw [hhead]
    unfold clientPortFlag
    cases h : (isPuttyStyle client || isScpStyle client) <;> simp [h]

/-- C3: for every scp-style client, the builder contributes exactly the
port flag and the port number; the trailing user arguments follow
unchanged, so no `-l` is contributed and no `localhost` is appended. -/
theorem buildSSHArgs_scp (client : String) (port : Nat) (login : String)
    (trailing : List String) (h : isScpStyle client = true) :
    buildSSHArgs client port login trailing = "-P" :: Nat.repr port :: trailing := by
  unfold buildSSHArgs clientPortFlag
  simp [h]

theorem buildSSHArgs_scp_witness :
    isScpStyle "scp" = true ∧
      buildSSHArgs "scp" 2022 "root" ["file.txt", "remote:/tmp/"] =
        "-P" :: Nat.repr 2022 :: ["file.txt", "remote:/tmp/"] :=
  ⟨by decide, buildSSHArgs_scp "scp" 2022 "root" ["file.txt", "remote:/tmp/"] (by decide)⟩

/-- C4: for every non-scp client, a non-empty login name contributes the
pair `-l <login>` immediately after the port flag and port number and
immediately before the trailing arguments; an empty login name contributes
nothing. -/
theorem buildSSHArgs_login_pair (client : String) (port : Nat) (login : String)
    (trailing : List String) (h : isScpStyle client = false) :
    (login.isEmpty = false →
      buildSSHArgs client port login trailing =
        clientPortFlag client :: Nat.repr port :: "-l" :: login ::
          (trailing ++ ["localhost"])) ∧
    (login.isEmpty = true →
      buildSSHArgs client port login trailing =
        clientPortFlag client :: Nat.repr port :: (trailing ++ ["localhost"])) := by
  unfold buildSSHArgs
  constructor <;> intro hl <;> simp [h, hl]

theorem buildSSHArgs_login_pair_witness :
    isScpStyle "ssh" = false ∧
      (((("root" : String).isEmpty = false) →
        buildSSHArgs "ssh" 2022 "root" ["-v"] =
          clientPortFlag "ssh" :: Nat.repr 2022 :: "-l" :: "root" ::
            (["-v"] ++ ["localhost"])) ∧
       ((("root" : String).isEmpty = true) →
        buildSSHArgs "ssh" 2022 "root" ["-v"] =
          clientPortFlag "ssh" :: Nat.repr 2022 :: (["-v"] ++ ["localhost"]))) :=
  ⟨by decide, buildSSHArgs_login_pair "ssh" 2022 "root" ["-v"] (by decide)⟩

/-- C5: for every non-scp client the built vector is a trailing-independent
prefix, then the user's trailing arguments verbatim and in order, then the
literal `localhost` as the final argument; with client `ssh`, no login and
no trailing arguments the invocation is exactly
`ssh -p <boundLocalPort> localhost`. -/
theorem buildSSHArgs_nonscp (client : String) (port : Nat) (login : String)
    (h : isScpStyle client = false) :
    (∃ pre, ∀ t : List String, buildSSHArgs client port login t =
      pre ++ t ++ ["localhost"]) ∧
    buildSSHArgs "ssh" port "" [] = ["-p", Nat.repr port, "localhost"] := by
  constructor
  · refine ⟨clientPortFlag client :: Nat.repr port ::
      (if !login.isEmpty && !isScpStyle client then ["-l", login] else []), fun t => ?_⟩
    unfold buildSSHArgs
    simp [h]
  · have h1 : isScpStyle "ssh" = false := by decide
    have h2 : isPuttyStyle "ssh" = false := by decide
    unfold buildSSHArgs clientPortFlag
    simp [h1, h2]
    decide

theorem buildSSHArgs_nonscp_witness :
    isScpStyle "ssh" = false ∧
      ((∃ pre, ∀ t : List String, buildSSHArgs "ssh" 3333 "" t =
        pre ++ t ++ ["localhost"]) ∧
       buildSSHArgs "ssh" 3333 "" [] = ["-p", Nat.repr 3333, "localhost"]) :=
  ⟨by decide, buildSSHArgs_nonscp "ssh" 3333 "" (by decide)⟩

theorem getLineFn_fst (l : List String) : (getLineFn l).1 = l.headD "" := by
  cases l <;> rfl

/-- C6: terminal echo is disabled before the password is read and restored
on every exit path of `promptLogin`, the failing-read path (exhausted
stdin) included: starting from an echo-enabled terminal, after
`promptLogin` returns the echo flag is enabled again, and the event trace
balances every echo-off with a following echo-on. -/
theorem promptLogin_echo_restored (ps : PromptState) (h : ps.echoOn = true)
    (h0 : ps.events = []) :
    (promptLogin ps).echoOn = true ∧
      ((promptLogin ps).events.count (Event.echoSet false) =
       (promptLogin ps).events.count (Event.echoSet true)) := by
  unfold promptLogin
  cases hu : ps.username.isEmpty <;> cases hp : ps.password.isEmpty <;>
    simp [hu, hp, h, h0]

theorem promptLogin_echo_restored_witness :
    (PromptState.mk "" "" [] true []).echoOn = true ∧
    (PromptState.mk "" "" [] true []).events = [] ∧
    ((promptLogin (PromptState.mk "" "" [] true [])).echoOn = true ∧
      ((promptLogin (PromptState.mk "" "" [] true [])).events.count (Event.echoSet false) =
       (promptLogin (PromptState.mk "" "" [] true [])).events.count (Event.echoSet true))) :=
  ⟨rfl, rfl, promptLogin_echo_restored (PromptState.mk "" "" [] true []) rfl rfl⟩

/-- C7: `promptLogin` prompts for the username iff the supplied username is
empty and for the password iff the supplied password is empty, never more
than once per field; a supplied field is left untouched, and a prompted
field takes the next stdin line as-is, a blank line included. -/
theorem promptLogin_prompts_iff (ps : PromptState) (h0 : ps.events = []) :
    ((Event.promptUser ∈ (promptLogin ps).events) ↔ ps.username.isEmpty = true) ∧
    ((Event.promptPassword ∈ (promptLogin ps).events) ↔ ps.password.isEmpty = true) ∧
    (promptLogin ps).events.count Event.promptUser ≤ 1 ∧
    (promptLogin ps).events.count Event.promptPassword ≤ 1 ∧
    (ps.username.isEmpty = true → (promptLogin ps).username = ps.stdin.headD "") ∧
    (ps.username.isEmpty = false → (promptLogin ps).username = ps.username) ∧
    (ps.password.isEmpty = false → (promptLogin ps).password = ps.password) := by
  unfold promptLogin
  cases hu : ps.username.isEmpty <;> cases hp : ps.password.isEmpty <;>
    simp [hu, hp, h0, getLineFn_fst]

theorem promptLogin_prompts_iff_witness :
    (PromptState.mk "" "" ["", ""] true []).events = [] ∧
    (((Event.promptUser ∈ (promptLogin (PromptState.mk "" "" ["", ""] true [])).events) ↔
        (PromptState.mk "" "" ["", ""] true []).username.isEmpty = true) ∧
     ((Event.promptPassword ∈ (promptLogin (PromptState.mk "" "" ["", ""] true [])).events) ↔
        (PromptState.mk "" "" ["", ""] true []).password.isEmpty = true) ∧
     (promptLogin (PromptState.mk "" "" ["", ""] true [])).events.count Event.promptUser ≤ 1 ∧
     (promptLogin (PromptState.mk "" "" ["", ""] true [])).events.count
        Event.promptPassword ≤ 1 ∧
     ((PromptState.mk "" "" ["", ""] true []).username.isEmpty = true →
        (promptLogin (PromptState.mk "" "" ["", ""] true [])).username =
          (PromptState.mk "" "" ["", ""] true []).stdin.headD "") ∧
     ((PromptState.mk "" "" ["", ""] true []).username.isEmpty = false →
        (promptLogin (PromptState.mk "" "" ["", ""] true [])).username =
          (PromptState.mk "" "" ["", ""] true []).username) ∧
     ((PromptState.mk "" "" ["", ""] true []).password.isEmpty = false →
        (promptLogin (PromptState.mk "" "" ["", ""] true [])).password =
          (PromptState.mk "" "" ["", ""] true []).password)) :=
  ⟨rfl, promptLogin_prompts_iff (PromptState.mk "" "" ["", ""] true []) rfl⟩

theorem args_isEmpty_false {α : Type} {args : List α} (ha : args ≠ []) :
    args.isEmpty = false := by
  cases args with
  | nil => exact absurd rfl ha
  | cons a l => rfl

theorem promptLogin_no_spawn (ps : PromptState) (exe : String) (a : List String)
    (h : Event.spawn exe a ∉ ps.events) :
    Event.spawn exe a ∉ (promptLogin ps).events := by
  unfold promptLogin
  cases hu : ps.username.isEmpty <;> cases hp : ps.password.isEmpty <;> simp_all

theorem mainFn_spawn_exe (s : AppState) (env : Env) (args : List String)
    (exe : String) (a : List String)
    (h : Event.spawn exe a ∈ (mainFn s env args).events) :
    exe = resolveSshClient env.cfg s.sshClient ∧ ∃ p, env.tunnel = Except.ok p := by
  simp only [mainFn] at h
  by_cases hb : (s.helpRequested || args.isEmpty) = true
  · rw [if_pos hb] at h
    simp at h
  · rw [if_neg hb] at h
    by_cases hc : (resolveSshClient env.cfg s.sshClient).isEmpty = true
    · rw [if_pos hc] at h
      simp at h
    · rw [if_neg hc] at h
      cases ht : env.tunnel with
      | error e =>
        rw [ht] at h
        simp only [] at h
        exact absurd h (promptLogin_no_spawn _ exe a (by simp))
      | ok p =>
        rw [ht] at h
        simp only [List.mem_append, List.mem_singleton, Event.spawn.injEq] at h
        rcases h with h | h
        · exact absurd h (promptLogin_no_spawn _ exe a (by simp))
        · exact ⟨h.1, p, rfl⟩

/-- C1 (counterexample): with the option value `ssh-from-option` supplied
via `handleClient` and the configuration key `ssh.executable` set to
`ssh-from-config`, the resolved executable — and the one the run spawns —
is the configuration value, not the option value; the claim that the
option wins over configuration is false on the code. -/
theorem sshClient_option_overridden_cex :
    resolveSshClient
      (fun k => if k = "ssh.executable" then some "ssh-from-config" else none)
      (handleClient initialState "ssh-from-option").sshClient = "ssh-from-config" ∧
    "ssh-from-config" ≠ "ssh-from-option" ∧
    (mainFn
      (handlePassword (handleUsername (handleClient initialState "ssh-from-option") "user") "pw")
      (Env.mk (fun k => if k = "ssh.executable" then some "ssh-from-config" else none)
        [] (Except.ok 2022) 0)
      ["https://device.example/"]).events =
      [Event.spawn "ssh-from-config" (buildSSHArgs "ssh-from-config" 2022 "" [])] := by
  refine ⟨by decide, by decide, by decide⟩

/-- C1 (amended): the SSH client executable is resolved exactly once, and
the `ssh.executable` configuration key takes precedence over an explicit
command-line option or `--scp` flag: whenever the key is present in the
configuration, the executable used for classification and launch is the
configuration value, whatever the option callbacks put into the member. -/
theorem sshClient_config_precedence (s : AppState) (env : Env) (args : List String)
    (v : String) (hcfg : env.cfg "ssh.executable" = some v) :
    resolveSshClient env.cfg s.sshClient = v ∧
    ∀ exe a, Event.spawn exe a ∈ (mainFn s env args).events → exe = v := by
  have hres : resolveSshClient env.cfg s.sshClient = v := by
    unfold resolveSshClient
    rw [hcfg]
    rfl
  exact ⟨hres, fun exe a h => hres ▸ (mainFn_spawn_exe s env args exe a h).1⟩

theorem sshClient_config_precedence_witness :
    (Env.mk (fun k => if k = "ssh.executable" then some "cfgssh" else none)
      [] (Except.ok 2022) 0).cfg "ssh.executable" = some "cfgssh" ∧
    (resolveSshClient
        (Env.mk (fun k => if k = "ssh.executable" then some "cfgssh" else none)
          [] (Except.ok 2022) 0).cfg
        (handleClient initialState "optssh").sshClient = "cfgssh" ∧
      ∀ exe a, Event.spawn exe a ∈
          (mainFn (handleClient initialState "optssh")
            (Env.mk (fun k => if k = "ssh.executable" then some "cfgssh" else none)
              [] (Except.ok 2022) 0)
            ["https://device.example/"]).events → exe = "cfgssh") :=
  ⟨by decide,
    sshClient_config_precedence (handleClient initialState "optssh")
      (Env.mk (fun k => if k = "ssh.executable" then some "cfgssh" else none)
        [] (Except.ok 2022) 0)
      ["https://device.example/"] "cfgssh" (by decide)⟩

/-- C8: when the resolved client executable is empty, the run returns the
configuration-error status `EXIT_CONFIG`, distinct from `EXIT_OK`, and no
child process is spawned. -/
theorem mainFn_empty_client (s : AppState) (env : Env) (args : List String)
    (hh : s.helpRequested = false) (ha : args ≠ [])
    (hc : (resolveSshClient env.cfg s.sshClient).isEmpty = true) :
    (mainFn s env args).rc = EXIT_CONFIG ∧
    (mainFn s env args).rc ≠ EXIT_OK ∧
    ∀ exe a, Event.spawn exe a ∉ (mainFn s env args).events := by
  unfold mainFn
  rw [hh, args_isEmpty_false ha]
  simp [hc, EXIT_CONFIG, EXIT_OK]

theorem mainFn_empty_client_witness :
    (handleClient initialState "").helpRequested = false ∧
    (["https://device.example/"] : List String) ≠ [] ∧
    (resolveSshClient (Env.mk (fun _ => none) [] (Except.ok 2022) 0).cfg
      (handleClient initialState "").sshClient).isEmpty = true ∧
    ((mainFn (handleClient initialState "")
        (Env.mk (fun _ => none) [] (Except.ok 2022) 0)
        ["https://device.example/"]).rc = EXIT_CONFIG ∧
     (mainFn (handleClient initialState "")
        (Env.mk (fun _ => none) [] (Except.ok 2022) 0)
        ["https://device.example/"]).rc ≠ EXIT_OK ∧
     ∀ exe a, Event.spawn exe a ∉
        (mainFn (handleClient initialState "")
          (Env.mk (fun _ => none) [] (Except.ok 2022) 0)
          ["https://device.example/"]).events) :=
  ⟨rfl, by decide, rfl,
    mainFn_empty_client (handleClient initialState "")
      (Env.mk (fun _ => none) [] (Except.ok 2022) 0)
      ["https://device.example/"] rfl (by decide) rfl⟩

/-- C9: in every run that gets past the help screen, if opening the tunnel
fails the process exits with the configuration-error status and no child
process is spawned; conversely a spawn event can occur only when the
tunnel was opened successfully. The tunnel outcome and the
exception-to-exit mapping are modelled from the spec (they live outside
the single source file); the spawn-after-open ordering is the source's. -/
theorem mainFn_tunnel_failure (s : AppState) (env : Env) (args : List String)
    (hh : s.helpRequested = false) (ha : args ≠ []) :
    (env.tunnel = Except.error () →
      (mainFn s env args).rc = EXIT_CONFIG ∧
      ∀ exe a, Event.spawn exe a ∉ (mainFn s env args).events) ∧
    (∀ exe a, Event.spawn exe a ∈ (mainFn s env args).events →
      ∃ p, env.tunnel = Except.ok p) := by
  refine ⟨fun ht => ⟨?_, fun exe a hmem => ?_⟩,
    fun exe a h => (mainFn_spawn_exe s env args exe a h).2⟩
  · unfold mainFn
    rw [hh, args_isEmpty_false ha]
    by_cases hc : (resolveSshClient env.cfg s.sshClient).isEmpty = true <;> simp [hc, ht]
  · rcases (mainFn_spawn_exe s env args exe a hmem).2 with ⟨p, hp⟩
    rw [ht] at hp
    exact Except.noConfusion hp

theorem mainFn_tunnel_failure_witness :
    initialState.helpRequested = false ∧
    (["https://device.example/"] : List String) ≠ [] ∧
    (((Env.mk (fun _ => none) ["user", "pw"] (Except.error ()) 0).tunnel = Except.error () →
      (mainFn initialState (Env.mk (fun _ => none) ["user", "pw"] (Except.error ()) 0)
        ["https://device.example/"]).rc = EXIT_CONFIG ∧
      ∀ exe a, Event.spawn exe a ∉
        (mainFn initialState (Env.mk (fun _ => none) ["user", "pw"] (Except.error ()) 0)
          ["https://device.example/"]).events) ∧
     (∀ exe a, Event.spawn exe a ∈
        (mainFn initialState (Env.mk (fun _ => none) ["user", "pw"] (Except.error ()) 0)
          ["https://device.example/"]).events →
        ∃ p, (Env.mk (fun _ => none) ["user", "pw"] (Except.error ()) 0).tunnel =
          Except.ok p)) :=
  ⟨rfl, by decide,
    mainFn_tunnel_failure initialState
      (Env.mk (fun _ => none) ["user", "pw"] (Except.error ()) 0)
      ["https://device.example/"] rfl (by decide)⟩

/-- C10: invoked with zero positional arguments and no flags (the freshly
constructed state), the program prints the usage help and exits with
status 0 — the same result as an explicit help request via `handleHelp`. -/
theorem mainFn_no_args_help (env : Env) :
    mainFn initialState env [] = RunResult.mk EXIT_OK [Event.help] ∧
    (mainFn initialState env []).rc = 0 ∧
    mainFn initialState env [] = mainFn (handleHelp initialState) env [] :=
  ⟨rfl, rfl, rfl⟩

end WebTunnelSSH
